import Mathlib

/-!
Shallow embedding of the HARMONY student-dashboard aggregation, cache and
recommendation logic, translated from the repository sources
(academic_tracker.py, financial_planner.py, mental_wellness.py,
prediction_engine.py, data_manager.py, app.py), together with theorems
settling the specification claims about them.

Python floats are modelled as exact rationals, dicts with optional keys as
structures of `Option` fields, and dicts used as insertion-ordered maps as
association lists.
-/

/-- A semester-performance record (an element of `self.performance` in
academic_tracker.py).  Every field is optional, mirroring Python dict keys
that may be absent. -/
structure PerfEntry where
  semester_index : Option Int
  sgpa : Option ℚ
  credits : Option ℚ
  cgpa : Option ℚ
deriving DecidableEq

/-- The sort/max key `x.get("semester_index", 0)`. -/
def idxKey (e : PerfEntry) : Int := e.semester_index.getD 0

/-- `sem.get("credits", 0)`. -/
def credOf (e : PerfEntry) : ℚ := e.credits.getD 0

/-- `sem.get("sgpa", 0)`. -/
def sgpaOf (e : PerfEntry) : ℚ := e.sgpa.getD 0

/-- Insert `x` into `l` in front of the first element `y` with `le x y`. -/
def insertB (le : α → α → Bool) (x : α) : List α → List α
  | [] => [x]
  | y :: ys => if le x y then x :: y :: ys else y :: insertB le x ys

/-- Stable insertion sort; models Python's stable `sorted`/`list.sort` with
the comparison induced by a sort key. -/
def sortB (le : α → α → Bool) : List α → List α
  | [] => []
  | x :: xs => insertB le x (sortB le xs)

theorem insertB_perm (le : α → α → Bool) (x : α) (l : List α) :
    (insertB le x l).Perm (x :: l) := by
  induction l with
  | nil => simp [insertB]
  | cons y ys ih =>
    simp only [insertB]
    split
    · exact List.Perm.refl _
    · exact (ih.cons y).trans (List.Perm.swap x y ys)

theorem sortB_perm (le : α → α → Bool) (l : List α) : (sortB le l).Perm l := by
  induction l with
  | nil => simp [sortB]
  | cons x xs ih => exact (insertB_perm le x (sortB le xs)).trans (ih.cons x)

theorem sortB_eq_nil_iff (le : α → α → Bool) (l : List α) :
    sortB le l = [] ↔ l = [] := by
  constructor
  · intro h
    have hp := sortB_perm le l
    rw [h] at hp
    exact hp.symm.eq_nil
  · intro h
    subst h
    rfl

/-- AcademicTracker.add_semester_performance (academic_tracker.py lines
162-196): when the record carries `sgpa` and `credits`, compute its `cgpa`
from the previous entries (sorted by semester index) and append it; the
updated performance list is returned (the trailing save_data call only
persists it). -/
def add_semester_performance (performance : List PerfEntry) (pdata : PerfEntry) :
    List PerfEntry :=
  match pdata.sgpa, pdata.credits with
  | some s, some c =>
    let sorted_performance := sortB (fun a b => decide (idxKey a ≤ idxKey b)) performance
    let pdata2 : PerfEntry :=
      if sorted_performance.isEmpty then
        { pdata with cgpa := some s }
      else
        let total_credits := (sorted_performance.map credOf).sum + c
        let weighted_sum :=
          (sorted_performance.map (fun e => sgpaOf e * credOf e)).sum + s * c
        { pdata with cgpa := some (if 0 < total_credits then weighted_sum / total_credits else 0) }
    performance ++ [pdata2]
  | _, _ => performance ++ [pdata]

/-- C1: for every call to AcademicTracker.add_semester_performance whose
record contains `sgpa` and `credits` (and with the documented nonnegative
credit amounts), the stored entry's cgpa is its sgpa when no entries exist;
otherwise it is the credit-weighted average over existing entries plus the
new one, and 0 when the credit total is 0 — no division error occurs. -/
theorem add_semester_cgpa (performance : List PerfEntry) (pdata : PerfEntry) (s c : ℚ)
    (hs : pdata.sgpa = some s) (hc : pdata.credits = some c)
    (hcred : ∀ e ∈ performance, 0 ≤ credOf e) (hc0 : 0 ≤ c) :
    ∃ stored : PerfEntry,
      add_semester_performance performance pdata = performance ++ [stored] ∧
      (performance = [] → stored.cgpa = some s) ∧
      (performance ≠ [] →
        ((performance.map credOf).sum + c = 0 → stored.cgpa = some 0) ∧
        ((performance.map credOf).sum + c ≠ 0 →
          stored.cgpa = some
            (((performance.map (fun e => sgpaOf e * credOf e)).sum + s * c) /
              ((performance.map credOf).sum + c)))) := by
  have hperm := sortB_perm (fun a b => decide (idxKey a ≤ idxKey b)) performance
  have hsumc : ((sortB (fun a b => decide (idxKey a ≤ idxKey b)) performance).map credOf).sum
      = (performance.map credOf).sum := (hperm.map credOf).sum_eq
  have hsumw : ((sortB (fun a b => decide (idxKey a ≤ idxKey b)) performance).map
        (fun e => sgpaOf e * credOf e)).sum
      = (performance.map (fun e => sgpaOf e * credOf e)).sum :=
    (hperm.map (fun e => sgpaOf e * credOf e)).sum_eq
  simp only [add_semester_performance, hs, hc]
  by_cases hnil : performance = []
  · subst hnil
    refine ⟨_, rfl, ?_, ?_⟩
    · intro _
      simp [sortB]
    · intro h; exact absurd rfl h
  · have hsort : ¬ (sortB (fun a b => decide (idxKey a ≤ idxKey b)) performance).isEmpty := by
      rw [List.isEmpty_iff, sortB_eq_nil_iff]
      exact hnil
    refine ⟨_, rfl, ?_, ?_⟩
    · intro h; exact absurd h hnil
    · intro _
      have hsum_nonneg : 0 ≤ (performance.map credOf).sum := by
        apply List.sum_nonneg
        intro x hx
        obtain ⟨e, he, rfl⟩ := List.mem_map.mp hx
        exact hcred e he
      constructor
      · intro hz
        simp only [if_neg hsort, hsumc, hsumw, hz]
        norm_num
      · intro hz
        have hpos : 0 < (performance.map credOf).sum + c := by
          rcases lt_or_eq_of_le (by linarith : (0:ℚ) ≤ (performance.map credOf).sum + c) with h | h
          · exact h
          · exact absurd h.symm hz
        simp only [if_neg hsort, hsumc, hsumw, if_pos hpos]

/-- Witness for `add_semester_cgpa` at a concrete two-semester input:
sgpa 8 with 2 credits followed by sgpa 9 with 2 credits gives cgpa 17/2. -/
theorem add_semester_cgpa_witness :
    (∀ e ∈ [(⟨some 1, some 8, some 2, some 8⟩ : PerfEntry)], 0 ≤ credOf e) ∧
    (0:ℚ) ≤ 2 ∧
    (∃ stored : PerfEntry,
      add_semester_performance [⟨some 1, some 8, some 2, some 8⟩]
          ⟨some 2, some 9, some 2, none⟩
        = [⟨some 1, some 8, some 2, some 8⟩] ++ [stored] ∧
      ([(⟨some 1, some 8, some 2, some 8⟩ : PerfEntry)] = [] → stored.cgpa = some 9) ∧
      ([(⟨some 1, some 8, some 2, some 8⟩ : PerfEntry)] ≠ [] →
        (([(⟨some 1, some 8, some 2, some 8⟩ : PerfEntry)].map credOf).sum + 2 = 0 →
          stored.cgpa = some 0) ∧
        (([(⟨some 1, some 8, some 2, some 8⟩ : PerfEntry)].map credOf).sum + 2 ≠ 0 →
          stored.cgpa = some
            ((([(⟨some 1, some 8, some 2, some 8⟩ : PerfEntry)].map
                (fun e => sgpaOf e * credOf e)).sum + 9 * 2) /
              (([(⟨some 1, some 8, some 2, some 8⟩ : PerfEntry)].map credOf).sum + 2))))) :=
  ⟨by decide, by norm_num,
    add_semester_cgpa [⟨some 1, some 8, some 2, some 8⟩] ⟨some 2, some 9, some 2, none⟩ 9 2
      rfl rfl (by decide) (by norm_num)⟩

/-- Python `max(xs, key=f)` over a nonempty list `x :: xs`: fold that keeps
the current best and replaces it only on a strictly greater key, hence the
first element attaining the maximal key is returned. -/
def pyMax (key : α → Int) (x : α) (xs : List α) : α :=
  xs.foldl (fun best y => if key best < key y then y else best) x

/-- AcademicTracker.get_current_cgpa (academic_tracker.py lines 198-205):
0.0 for an empty history, otherwise the `cgpa` (default 0.0) of
`max(self.performance, key=lambda x: x.get("semester_index", 0))`. -/
def get_current_cgpa (performance : List PerfEntry) : ℚ :=
  match performance with
  | [] => 0
  | x :: xs => (pyMax idxKey x xs).cgpa.getD 0

theorem pyMax_eq (key : α → Int) (e : α) :
    ∀ (xs : List α) (x : α), (x = e ∨ (key x < key e ∧ e ∈ xs)) →
      (∀ y ∈ xs, y = e ∨ key y < key e) → pyMax key x xs = e := by
  intro xs
  induction xs with
  | nil =>
    intro x hx _
    rcases hx with h | ⟨_, h⟩
    · exact h
    · cases h
  | cons y ys ih =>
    intro x hx hmax
    have hstep : pyMax key x (y :: ys) = pyMax key (if key x < key y then y else x) ys := rfl
    rw [hstep]
    apply ih
    · rcases hmax y (List.mem_cons_self y ys) with hy | hy
      · subst hy
        by_cases hlt : key x < key y
        · left; simp [hlt]
        · rcases hx with h | ⟨h, _⟩
          · left; simpa [hlt] using h
          · exact absurd h hlt
      · have hyne : y ≠ e := by
          intro h; subst h; exact lt_irrefl _ hy
        rcases hx with h | ⟨h, hmem⟩
        · subst h
          have : ¬ key x < key y := fun hlt => absurd (hlt.trans hy) (lt_irrefl _)
          left; simp [this]
        · have hmem2 : e ∈ ys := by
            rcases List.mem_cons.mp hmem with h2 | h2
            · exact absurd h2.symm hyne
            · exact h2
          right
          constructor
          · by_cases hlt : key x < key y <;> simp [hlt, hy, h]
          · exact hmem2
    · intro z hz
      exact hmax z (List.mem_cons_of_mem y hz)

theorem get_current_cgpa_of_max (l : List PerfEntry) (e : PerfEntry)
    (he : e ∈ l) (hmax : ∀ x ∈ l, x = e ∨ idxKey x < idxKey e) :
    get_current_cgpa l = e.cgpa.getD 0 := by
  match l, he with
  | x :: xs, he =>
    have hx : x = e ∨ (idxKey x < idxKey e ∧ e ∈ xs) := by
      rcases hmax x (List.mem_cons_self x xs) with h | h
      · exact Or.inl h
      · right
        refine ⟨h, ?_⟩
        rcases List.mem_cons.mp he with h2 | h2
        · subst h2; exact absurd h (lt_irrefl _)
        · exact h2
    have : pyMax idxKey x xs = e :=
      pyMax_eq idxKey e xs x hx (fun y hy => hmax y (List.mem_cons_of_mem x hy))
    simp [get_current_cgpa, this]

/-- C7: for every non-empty performance list whose maximal semester_index
(absent indices read as 0) is attained by a single entry `e`,
get_current_cgpa returns `e`'s cgpa, and it does so on every reordering of
the list (insertion order is irrelevant). -/
theorem get_current_cgpa_max_entry (l l2 : List PerfEntry) (e : PerfEntry)
    (hperm : l.Perm l2) (he : e ∈ l)
    (hmax : ∀ x ∈ l, x = e ∨ idxKey x < idxKey e) :
    get_current_cgpa l = e.cgpa.getD 0 ∧ get_current_cgpa l2 = e.cgpa.getD 0 := by
  refine ⟨get_current_cgpa_of_max l e he hmax, ?_⟩
  apply get_current_cgpa_of_max l2 e (hperm.subset he)
  intro x hx
  exact hmax x (hperm.symm.subset hx)

/-- Witness for `get_current_cgpa_max_entry`: entries with semester_index
1, 2, 3 and cgpa 7, 8, 9 inserted out of order; both orders return 9, the
cgpa of the index-3 entry. -/
theorem get_current_cgpa_max_entry_witness :
    get_current_cgpa
        [⟨some 2, none, none, some 8⟩, ⟨some 3, none, none, some 9⟩,
          ⟨some 1, none, none, some 7⟩] = (9 : ℚ) ∧
    get_current_cgpa
        [⟨some 1, none, none, some 7⟩, ⟨some 2, none, none, some 8⟩,
          ⟨some 3, none, none, some 9⟩] = (9 : ℚ) :=
  get_current_cgpa_max_entry
    [⟨some 2, none, none, some 8⟩, ⟨some 3, none, none, some 9⟩,
      ⟨some 1, none, none, some 7⟩]
    [⟨some 1, none, none, some 7⟩, ⟨some 2, none, none, some 8⟩,
      ⟨some 3, none, none, some 9⟩]
    ⟨some 3, none, none, some 9⟩ (by decide) (by decide) (by decide)

/-- A moment in time as carried by the ISO datetime strings the code
compares: components (year, month, day, seconds-within-day).
Lexicographic comparison of these components coincides with Python's
lexicographic comparison of zero-padded ISO datetime strings. -/
structure PyDate where
  year : Nat
  month : Nat
  day : Nat
  time : Nat
deriving DecidableEq

/-- Python `<=` on ISO datetime strings: lexicographic on components. -/
def PyDate.le (a b : PyDate) : Bool :=
  Nat.blt a.year b.year ||
    (a.year == b.year && (Nat.blt a.month b.month ||
      (a.month == b.month && (Nat.blt a.day b.day ||
        (a.day == b.day && Nat.ble a.time b.time)))))

/-- A financial transaction record; optional fields mirror dict keys that
may be absent. -/
structure Transaction where
  date : Option PyDate
  amount : Option ℚ
  category : Option String
  description : Option String
deriving DecidableEq

/-- `t.get("amount", 0)`. -/
def amtOf (t : Transaction) : ℚ := t.amount.getD 0

/-- `t.get("category", "Other")`. -/
def catOf (t : Transaction) : String := t.category.getD ("Other")

/-- The filter `t.get("date", "") >= month_start`: a missing date reads as
the empty string, which is strictly below every ISO datetime string. -/
def dateAtLeast (t : Transaction) (ms : PyDate) : Bool :=
  match t.date with
  | none => false
  | some d => PyDate.le ms d

/-- `datetime(now.year, now.month, 1).isoformat()`. -/
def monthStart (now : PyDate) : PyDate := ⟨now.year, now.month, 1, 0⟩

/-- One step of the grouping loop: `spending[category] += amount` if the
key exists, else `spending[category] = amount`, preserving dict insertion
order. -/
def addToCategory (m : List (String × ℚ)) (cat : String) (amount : ℚ) :
    List (String × ℚ) :=
  match m with
  | [] => [(cat, amount)]
  | (k, v) :: rest =>
    if k = cat then (k, v + amount) :: rest else (k, v) :: addToCategory rest cat amount

/-- FinancialPlanner.get_actual_spending (financial_planner.py lines
133-155): sums, by category, the absolute values of the amounts of stored
transactions with `date >= month_start` and negative amount. -/
def get_actual_spending (transactions : List Transaction) (now : PyDate) :
    List (String × ℚ) :=
  let month_transactions :=
    transactions.filter (fun t => dateAtLeast t (monthStart now) && decide (amtOf t < 0))
  month_transactions.foldl (fun spending t => addToCategory spending (catOf t) |amtOf t|) []

/-- FinancialPlanner.get_budget_adherence (financial_planner.py lines
157-171): 0 on an empty budget dict; 0 when the budget total is 0;
otherwise `(1 - total_spending/total_budget) * 100` clamped to [0, 100]. -/
def get_budget_adherence (budget : List (String × ℚ)) (transactions : List Transaction)
    (now : PyDate) : ℚ :=
  if budget.isEmpty then 0
  else
    let actual_spending := get_actual_spending transactions now
    let total_budget := (budget.map Prod.snd).sum
    let total_spending := (actual_spending.map Prod.snd).sum
    if total_budget = 0 then 0
    else max 0 (min 100 ((1 - total_spending / total_budget) * 100))

/-- The specification's notion of current-month spending: total of the
absolute values of negative amounts over transactions dated within the
current calendar month (same year and month as `now`). -/
def specMonthSpent (transactions : List Transaction) (now : PyDate) : ℚ :=
  ((transactions.filter (fun t =>
      (match t.date with
        | none => false
        | some d => d.year == now.year && d.month == now.month) &&
        decide (amtOf t < 0))).map (fun t => |amtOf t|)).sum

theorem addToCategory_sum (m : List (String × ℚ)) (cat : String) (amount : ℚ) :
    ((addToCategory m cat amount).map Prod.snd).sum = (m.map Prod.snd).sum + amount := by
  induction m with
  | nil => simp [addToCategory]
  | cons kv rest ih =>
    obtain ⟨k, v⟩ := kv
    simp only [addToCategory]
    split
    · simp [add_assoc, add_comm]
    · simp [ih]
      ring

theorem grouping_total (l : List Transaction) :
    ∀ m : List (String × ℚ),
      ((l.foldl (fun spending t => addToCategory spending (catOf t) |amtOf t|) m).map
        Prod.snd).sum
      = (m.map Prod.snd).sum + ((l.map fun t => |amtOf t|)).sum := by
  induction l with
  | nil => intro m; simp
  | cons t rest ih =>
    intro m
    simp only [List.foldl_cons, List.map_cons, List.sum_cons]
    rw [ih, addToCategory_sum]
    ring

/-- Total of get_actual_spending equals the ungrouped total over the
filtered transactions. -/
theorem actual_spending_total (transactions : List Transaction) (now : PyDate) :
    ((get_actual_spending transactions now).map Prod.snd).sum
      = (((transactions.filter (fun t =>
            dateAtLeast t (monthStart now) && decide (amtOf t < 0))).map
          fun t => |amtOf t|)).sum := by
  unfold get_actual_spending
  rw [grouping_total]
  simp

/-- C2 amended: get_budget_adherence returns 0 when the budget mapping is
empty or its total is 0, and otherwise `max 0 (min 100 ((1 − spent/total)
× 100))`, where `spent` sums the absolute values of negative-amount
transactions dated on or after the first day of the current month (with no
upper bound on the date); in particular, with no such spending and a
nonzero budget total it returns 100. -/
theorem budget_adherence_formula (budget : List (String × ℚ))
    (transactions : List Transaction) (now : PyDate) :
    (budget = [] → get_budget_adherence budget transactions now = 0) ∧
    (budget ≠ [] → (budget.map Prod.snd).sum = 0 →
        get_budget_adherence budget transactions now = 0) ∧
    (budget ≠ [] → (budget.map Prod.snd).sum ≠ 0 →
        get_budget_adherence budget transactions now
          = max 0 (min 100 ((1 -
              (((transactions.filter (fun t =>
                  dateAtLeast t (monthStart now) && decide (amtOf t < 0))).map
                fun t => |amtOf t|)).sum / (budget.map Prod.snd).sum) * 100))) ∧
    (budget ≠ [] → (budget.map Prod.snd).sum ≠ 0 →
        (((transactions.filter (fun t =>
            dateAtLeast t (monthStart now) && decide (amtOf t < 0))).map
          fun t => |amtOf t|)).sum = 0 →
        get_budget_adherence budget transactions now = 100) := by
  refine ⟨?_, ?_, ?_, ?_⟩
  · intro h
    subst h
    rfl
  · intro hne hz
    unfold get_budget_adherence
    rw [if_neg (by simpa [List.isEmpty_iff] using hne)]
    simp [hz]
  · intro hne hz
    unfold get_budget_adherence
    rw [if_neg (by simpa [List.isEmpty_iff] using hne)]
    simp only [if_neg hz]
    rw [actual_spending_total]
  · intro hne hz hs
    unfold get_budget_adherence
    rw [if_neg (by simpa [List.isEmpty_iff] using hne)]
    simp only [if_neg hz]
    rw [actual_spending_total, hs]
    norm_num

/-- Witness for `budget_adherence_formula`: budget Food ↦ 100 and no
transactions yields adherence 100. -/
theorem budget_adherence_formula_witness :
    ([(("Food" : String), (100:ℚ))] ≠ []) ∧
    (([(("Food" : String), (100:ℚ))].map Prod.snd).sum ≠ 0) ∧
    ((([] : List Transaction).filter (fun t =>
        dateAtLeast t (monthStart ⟨2025, 4, 15, 0⟩) && decide (amtOf t < 0))).map
      fun t => |amtOf t|).sum = 0 ∧
    get_budget_adherence [(("Food" : String), (100:ℚ))] [] ⟨2025, 4, 15, 0⟩ = 100 :=
  ⟨by simp, by norm_num, by simp,
    (budget_adherence_formula [(("Food" : String), (100:ℚ))] [] ⟨2025, 4, 15, 0⟩).2.2.2
      (by simp) (by norm_num) (by simp)⟩

/-- C2 counterexample: budget Food ↦ 100 and a single expense of 50 dated
2025-05-10, one month after `now` = 2025-04-15.  There is no spending
dated within the current calendar month against the nonzero total budget
of 100, so the claim demands 100, but the code's lower-bound-only filter
`date >= month_start` counts the future-dated expense and returns 50. -/
theorem budget_adherence_counterexample :
    specMonthSpent [⟨some ⟨2025, 5, 10, 0⟩, some (-50), some ("Food"), none⟩]
        ⟨2025, 4, 15, 0⟩ = 0 ∧
    (([(("Food" : String), (100:ℚ))].map Prod.snd).sum ≠ 0) ∧
    get_budget_adherence [(("Food" : String), (100:ℚ))]
        [⟨some ⟨2025, 5, 10, 0⟩, some (-50), some ("Food"), none⟩] ⟨2025, 4, 15, 0⟩ = 50 ∧
    (50 : ℚ) ≠ 100 := by
  refine ⟨?_, by norm_num, ?_, by norm_num⟩
  · simp [specMonthSpent]
  · have hfl : ([⟨some ⟨2025, 5, 10, 0⟩, some (-50), some ("Food"), none⟩] :
        List Transaction).filter (fun t =>
          dateAtLeast t (monthStart ⟨2025, 4, 15, 0⟩) && decide (amtOf t < 0))
        = [⟨some ⟨2025, 5, 10, 0⟩, some (-50), some ("Food"), none⟩] := by decide
    unfold get_budget_adherence get_actual_spending
    simp only [hfl]
    norm_num [addToCategory, catOf, amtOf, List.isEmpty]

/-- Leading-match test: the first list occurs at the head of the second. -/
def leadMatch : List Char → List Char → Bool
  | [], _ => true
  | _ :: _, [] => false
  | c :: cs, d :: ds => c == d && leadMatch cs ds

/-- Substring occurrence of `needle` anywhere in the second list. -/
def containsSub (needle : List Char) : List Char → Bool
  | [] => leadMatch needle []
  | c :: t => leadMatch needle (c :: t) || containsSub needle t

/-- Python's substring test `needle in hay` on strings. -/
def strContains (hay needle : String) : Bool := containsSub needle.toList hay.toList

/-- Python `str` applied to an optional string: `None` prints as "None". -/
def pyStr (o : Option String) : String := o.getD ("None")

/-- One item of academic-trend content, with the fixed key set
trend/description/benefit. -/
structure Trend where
  trend : String
  description : String
  benefit : String
deriving DecidableEq

/-- AIAdvisorAgent._get_fallback_academic_trends (app.py lines 255-310):
static content keyed by a coarse classification of the degree
(engineering vs business vs other). -/
def fallback_academic_trends (degree : Option String) : List Trend :=
  if strContains (pyStr degree) ("B.Tech") || strContains (pyStr degree) ("B.E.") then
    [⟨"Project-Based Learning",
      "Engineering programs are increasingly adopting project-based approaches that mirror industry practices",
      "Develops practical skills and portfolio for job market"⟩,
     ⟨"AI & ML Integration",
      "AI and machine learning concepts are being integrated across engineering disciplines",
      "Prepares students for the most in-demand technical skills"⟩,
     ⟨"Micro-credentials",
      "Short, specialized certifications that complement formal degrees",
      "Allows students to demonstrate specific technical competencies to employers"⟩]
  else if strContains (pyStr degree) ("BBA") || strContains (pyStr degree) ("B.Com") then
    [⟨"Data-Driven Decision Making",
      "Business curricula now emphasize statistical analysis and data interpretation",
      "Essential skill for modern business operations and strategy"⟩,
     ⟨"Entrepreneurship Focus",
      "Programs emphasizing startup methodologies and business model innovation",
      "Prepares students for both corporate and startup environments"⟩,
     ⟨"Sustainability Management",
      "Business courses integrating environmental and social impact considerations",
      "Alignment with emerging business priorities and regulations"⟩]
  else
    [⟨"Interdisciplinary Learning",
      "Programs that blend multiple fields of study for broader perspectives",
      "Develops versatile thinking and adaptability"⟩,
     ⟨"Digital Literacy Enhancement",
      "Focused training on digital tools relevant to all disciplines",
      "Essential workplace skills regardless of field"⟩,
     ⟨"Active Learning Methods",
      "Techniques that emphasize student participation over passive lectures",
      "Improves retention and practical application of concepts"⟩]

/-- The body of a successful GROQ HTTP reply.  `content` models
`response["choices"][0]["message"]["content"]`; `none` stands for a reply
missing those fields, whose KeyError is caught by the enclosing `except`
in get_academic_trends. -/
structure GroqResponse where
  content : Option String

/-- The value json.loads produces from the (regex-extracted) model
output: either a structured array of trend items, or any other JSON value
— null, a number, a string, an object — carried as the repr of the
resulting Python value.  The source performs no validation of the parsed
value. -/
inductive JsonValue where
  | arr (trends : List Trend)
  | nonArr (pyRepr : String)
deriving DecidableEq

/-- True when the parsed value is a structured array of trend items. -/
def isTrendList : JsonValue → Bool
  | .arr _ => true
  | .nonArr _ => false

/-- AIAdvisorAgent.get_academic_trends (app.py lines 217-253).  The
external collaborators appear as parameters: `response` is the outcome of
`_make_groq_request` (`none` on transport error or non-success status)
and `parse` is the regex-extraction plus json.loads step of lines
238-244: `none` when json.loads raises (invalid JSON, caught by the
inner except), `some v` when it succeeds with value `v`.  Line 245
returns the parsed value unvalidated, so a valid-JSON non-array value
reaches the caller; only the raising paths land on the static
fallback. -/
def get_academic_trends (initialized : Bool) (response : Option GroqResponse)
    (parse : String → Option JsonValue) (degree : Option String) : JsonValue :=
  if !initialized then .arr (fallback_academic_trends degree)
  else
    match response with
    | none => .arr (fallback_academic_trends degree)
    | some r =>
      match r.content with
      | none => .arr (fallback_academic_trends degree)
      | some c =>
        match parse c with
        | none => .arr (fallback_academic_trends degree)
        | some v => v

/-- C3 amended: when every CompletionService call fails at the transport
or response level, or the output makes json.loads raise, the getter
returns the non-empty static fallback for the degree classification; but
when the output parses as valid JSON, the parsed value is returned to
the caller unvalidated — even when it is not an array — so the getter
does not always return a list of fallback items. -/
theorem academic_trends_fallback (initialized : Bool) (response : Option GroqResponse)
    (parse : String → Option JsonValue) (degree : Option String) :
    ((response.bind (fun r => r.content) = none ∨ ∀ s, parse s = none) →
      get_academic_trends initialized response parse degree
        = .arr (fallback_academic_trends degree)) ∧
    fallback_academic_trends degree ≠ [] ∧
    (∀ c v, response = some ⟨some c⟩ → parse c = some v → initialized = true →
      get_academic_trends initialized response parse degree = v) := by
  refine ⟨?_, ?_, ?_⟩
  · intro hfail
    cases response with
    | none => cases initialized <;> simp [get_academic_trends]
    | some r =>
      cases hc : r.content with
      | none => cases initialized <;> simp [get_academic_trends, hc]
      | some c =>
        rcases hfail with h | h
        · simp [hc] at h
        · cases initialized <;> simp [get_academic_trends, hc, h]
  · unfold fallback_academic_trends
    split
    · simp
    · split <;> simp
  · intro c v hresp hparse hinit
    subst hresp
    subst hinit
    simp [get_academic_trends, hparse]

/-- The always-failing parse step: json.loads raises on every output. -/
def alwaysFailParse : String → Option JsonValue := fun _ => none

/-- The json.loads outcome on the bracket-free reply "null": parsing
succeeds and yields Python None. -/
def nullParse : String → Option JsonValue := fun _ => some (.nonArr ("None"))

/-- Witness for `academic_trends_fallback`: an initialized agent whose
request transport-fails, for a B.Tech student, gets the non-empty
fallback. -/
theorem academic_trends_fallback_witness :
    get_academic_trends true none alwaysFailParse (some ("B.Tech CSE"))
        = .arr (fallback_academic_trends (some ("B.Tech CSE"))) ∧
    fallback_academic_trends (some ("B.Tech CSE")) ≠ [] :=
  ⟨(academic_trends_fallback true none alwaysFailParse (some ("B.Tech CSE"))).1
      (Or.inl rfl),
    (academic_trends_fallback true none alwaysFailParse (some ("B.Tech CSE"))).2.1⟩

/-- C3 counterexample: the model replies with the bracket-free valid JSON
text "null"; the regex finds no bracketed substring, json.loads succeeds
with Python None, and line 245 returns that None to the caller — not a
list and not the fallback — refuting the claim that the getter always
returns a non-null, non-empty list of fallback items. -/
theorem academic_trends_nonlist_counterexample :
    get_academic_trends true (some ⟨some ("null")⟩) nullParse (some ("B.Tech CSE"))
        = JsonValue.nonArr ("None") ∧
    isTrendList (JsonValue.nonArr ("None")) = false ∧
    get_academic_trends true (some ⟨some ("null")⟩) nullParse (some ("B.Tech CSE"))
      ≠ JsonValue.arr (fallback_academic_trends (some ("B.Tech CSE"))) :=
  ⟨rfl, rfl, by decide⟩

/-- Profile data extracted for update_content_cache (app.py lines
930-936). -/
structure Profile where
  degree : String
  year_of_study : String
  college : String

/-- st.session_state.cached_content: one payload slot per content kind
(initially None) plus the single shared last_updated timestamp, modelled
in seconds. -/
structure CachedContent where
  academic_trends : Option JsonValue
  financial_tips : Option (List String)
  wellness_tips : Option (List String)
  career_insights : Option (List String)
  education_news : Option (List String)
  finance_news : Option (List String)
  wellness_news : Option (List String)
  career_news : Option (List String)
  last_updated : Option Int
deriving DecidableEq

/-- Outcomes of the external calls made during one refresh.  The academic
kind carries the raw request outcome and the parse step, so the embedded
get_academic_trends is invoked; the other seven getters likewise trap
their own failures and return plain lists, supplied here directly because
their internal structure is irrelevant to the claims. -/
structure Services where
  academicResponse : Option GroqResponse
  academicParse : String → Option JsonValue
  financial_tips : List String
  wellness_tips : List String
  career_insights : List String
  education_news : List String
  finance_news : List String
  wellness_news : List String
  career_news : List String

/-- `timedelta.days`: floor of the difference in seconds over 86400. -/
def pyDays (delta : Int) : Int := Int.ediv delta 86400

/-- The skip test of update_content_cache (app.py line 921):
`not force and last_updated and (current_time - last_updated).days < 1`
(a null last_updated is falsy). -/
def staleSkip (cache : CachedContent) (force : Bool) (now : Int) : Bool :=
  !force && (match cache.last_updated with
    | some lu => decide (pyDays (now - lu) < 1)
    | none => false)

/-- update_content_cache (app.py lines 915-980), time in seconds.
Returns the new cache and whether the live fetch section (the agent calls
of lines 939-974) ran.  The getters it calls trap their own failures and
return normally, so the body's except branch is not reachable from
them and last_updated is always written once the fetch section runs. -/
def update_content_cache (svc : Services) (initialized : Bool) (profile : Option Profile)
    (cache : CachedContent) (force : Bool) (now : Int) : CachedContent × Bool :=
  if staleSkip cache force now then (cache, false)
  else if !initialized then (cache, false)
  else
    match profile with
    | none => (cache, false)
    | some p =>
      ({ academic_trends :=
            some (get_academic_trends initialized svc.academicResponse svc.academicParse
              (some p.degree)),
          financial_tips := some svc.financial_tips,
          wellness_tips := some svc.wellness_tips,
          career_insights := some svc.career_insights,
          education_news := some svc.education_news,
          finance_news := some svc.finance_news,
          wellness_news := some svc.wellness_news,
          career_news := some svc.career_news,
          last_updated := some now }, true)

/-- A Services value on which every CompletionService call fails. -/
def failingServices : Services :=
  ⟨none, alwaysFailParse, [], [], [], [], [], [], []⟩

/-- The initial cached_content of app.py lines 140-148: every payload and
last_updated start as None. -/
def emptyCache : CachedContent :=
  ⟨none, none, none, none, none, none, none, none, none⟩

/-- A concrete engineering-student profile. -/
def sampleProfile : Profile := ⟨"B.Tech CSE", "2nd Year", "IIT"⟩

/-- C4 counterexample: agent initialized, profile present, empty cache
(null last_updated), every network call failing.  The non-forced refresh
stores the static fallback payload AND sets last_updated to the current
time, so the following non-forced call skips the live path instead of
retrying it — the claim's "last_updated left null/unchanged on fallback"
is false on the code. -/
theorem cache_fallback_counterexample :
    (update_content_cache failingServices true (some sampleProfile) emptyCache
        false 0).1.academic_trends
      = some (JsonValue.arr (fallback_academic_trends (some ("B.Tech CSE")))) ∧
    (update_content_cache failingServices true (some sampleProfile) emptyCache
        false 0).1.last_updated = some 0 ∧
    (update_content_cache failingServices true (some sampleProfile) emptyCache
        false 0).1.last_updated ≠ none ∧
    (update_content_cache failingServices true (some sampleProfile)
        (update_content_cache failingServices true (some sampleProfile) emptyCache
          false 0).1 false 0).2 = false := by
  exact ⟨rfl, rfl, by decide, by decide⟩

/-- C4 amended: whenever the refresh actually runs (forced, or
last_updated null, or at least one day old — with the agent initialized
and a profile present), update_content_cache sets last_updated to the
current time, even when every stored payload is fallback content;
last_updated is left unchanged only when the update is skipped. -/
theorem cache_sets_timestamp (svc : Services) (profile : Profile)
    (cache : CachedContent) (force : Bool) (now : Int)
    (hstale : force = true ∨ cache.last_updated = none ∨
      ∀ lu, cache.last_updated = some lu → 1 ≤ pyDays (now - lu)) :
    (update_content_cache svc true (some profile) cache force now).1.last_updated
        = some now ∧
    (update_content_cache svc true (some profile) cache force now).2 = true := by
  have hcond : staleSkip cache force now = false := by
    unfold staleSkip
    rcases hstale with h | h | h
    · subst h; rfl
    · rw [h]; simp
    · cases hlu : cache.last_updated with
      | none => simp
      | some lu =>
        have hle := h lu hlu
        have : ¬ pyDays (now - lu) < 1 := by omega
        simp [this]
  unfold update_content_cache
  rw [hcond]
  exact ⟨rfl, rfl⟩

/-- Witness for `cache_sets_timestamp`: a failing-service refresh over the
empty cache at time 0 writes last_updated = 0. -/
theorem cache_sets_timestamp_witness :
    (update_content_cache failingServices true (some sampleProfile) emptyCache
        false 0).1.last_updated = some 0 ∧
    (update_content_cache failingServices true (some sampleProfile) emptyCache
        false 0).2 = true :=
  cache_sets_timestamp failingServices sampleProfile emptyCache false 0
    (Or.inr (Or.inl rfl))

/-- C9: with force=false, a second refresh at the same moment leaves the
cache exactly as the first call left it and never runs the live fetch
(at most one fetch across the two calls); moreover the first call fetches
only if last_updated was null or at least one day old — the staleness
rule of app.py line 921. -/
theorem cache_refresh_idempotent (svc : Services) (initialized : Bool)
    (profile : Option Profile) (cache : CachedContent) (now : Int) :
    (update_content_cache svc initialized profile
        (update_content_cache svc initialized profile cache false now).1 false now).1
      = (update_content_cache svc initialized profile cache false now).1 ∧
    (update_content_cache svc initialized profile
        (update_content_cache svc initialized profile cache false now).1 false now).2
      = false ∧
    ((update_content_cache svc initialized profile cache false now).2 = true →
      cache.last_updated = none ∨
        ∃ lu, cache.last_updated = some lu ∧ 1 ≤ pyDays (now - lu)) := by
  by_cases hskip : staleSkip cache false now = true
  · have h1 : update_content_cache svc initialized profile cache false now
        = (cache, false) := by
      unfold update_content_cache
      rw [if_pos hskip]
    simp [h1]
  · have hskipf : staleSkip cache false now = false := by
      simpa using hskip
    have hstale3 : cache.last_updated = none ∨
        ∃ lu, cache.last_updated = some lu ∧ 1 ≤ pyDays (now - lu) := by
      unfold staleSkip at hskipf
      cases hlu : cache.last_updated with
      | none => exact Or.inl rfl
      | some lu =>
        rw [hlu] at hskipf
        simp at hskipf
        exact Or.inr ⟨lu, rfl, by omega⟩
    cases hinit : initialized with
    | false =>
      have h1 : update_content_cache svc false profile cache false now
          = (cache, false) := by
        unfold update_content_cache
        rw [if_neg (by simp [hskipf])]
        rfl
      simp [h1]
    | true =>
      cases profile with
      | none =>
        have h1 : update_content_cache svc true none cache false now
            = (cache, false) := by
          unfold update_content_cache
          rw [if_neg (by simp [hskipf])]
          rfl
        simp [h1]
      | some p =>
        have h2 : (update_content_cache svc true (some p) cache false now).1.last_updated
            = some now ∧
            (update_content_cache svc true (some p) cache false now).2 = true := by
          unfold update_content_cache
          rw [if_neg (by simp [hskipf])]
          exact ⟨rfl, rfl⟩
        have h3 : ∀ c2 : CachedContent, c2.last_updated = some now →
            update_content_cache svc true (some p) c2 false now = (c2, false) := by
          intro c2 hc2
          unfold update_content_cache
          rw [if_pos]
          unfold staleSkip
          rw [hc2]
          simp only [Bool.not_false, Bool.true_and, decide_eq_true_eq, pyDays, sub_self]
          decide
        refine ⟨?_, ?_, fun _ => hstale3⟩
        · rw [h3 _ h2.1]
        · rw [h3 _ h2.1]

/-- Witness for `cache_refresh_idempotent` at a concrete stale cache:
first call fetches, second call does not and leaves the cache alone. -/
theorem cache_refresh_idempotent_witness :
    (update_content_cache failingServices true (some sampleProfile)
        (update_content_cache failingServices true (some sampleProfile) emptyCache
          false 7).1 false 7).1
      = (update_content_cache failingServices true (some sampleProfile) emptyCache
          false 7).1 ∧
    (update_content_cache failingServices true (some sampleProfile)
        (update_content_cache failingServices true (some sampleProfile) emptyCache
          false 7).1 false 7).2
      = false ∧
    ((update_content_cache failingServices true (some sampleProfile) emptyCache
        false 7).2 = true →
      emptyCache.last_updated = none ∨
        ∃ lu, emptyCache.last_updated = some lu ∧ 1 ≤ pyDays (7 - lu)) :=
  cache_refresh_idempotent failingServices true (some sampleProfile) emptyCache 7

/-- A recommendation dict with title, description and an optional
priority string. -/
structure Recommendation where
  title : String
  description : String
  priority : Option String
deriving DecidableEq

/-- `priority_order.get(x.get("priority", "low"), 0)` with
`priority_order = {high: 3, medium: 2, low: 1}` (prediction_engine.py
lines 55-56): a missing priority reads as "low", an unknown priority
string ranks 0. -/
def priorityRank (r : Recommendation) : Nat :=
  if r.priority.getD ("low") == "high" then 3
  else if r.priority.getD ("low") == "medium" then 2
  else if r.priority.getD ("low") == "low" then 1
  else 0

/-- Python's stable `list.sort(key=..., reverse=True)` on the four-valued
rank: the stable descending sort is the concatenation of the rank-3,
rank-2, rank-1 and rank-0 sublists, each in original order. -/
def sortByPriority (recs : List Recommendation) : List Recommendation :=
  recs.filter (fun r => priorityRank r == 3) ++
  recs.filter (fun r => priorityRank r == 2) ++
  recs.filter (fun r => priorityRank r == 1) ++
  recs.filter (fun r => priorityRank r == 0)

/-- A Python exception value. -/
inductive PyErr where
  | attributeError (message : String)
  | keyError (message : String)
deriving DecidableEq

/-- PredictiveEngine.get_personalized_recommendations
(prediction_engine.py lines 23-62) on a cold cache: the four domain
generators are called in order, their lists concatenated, and the result
stable-sorted by priority rank descending.  The generator calls of lines
39, 43, 47 and 51 appear as `Except` parameters; no try/except surrounds
them in the source, so an exception raised by any generator aborts the
call and propagates to the caller. -/
def get_personalized_recommendations
    (acad fin well car : Except PyErr (List Recommendation)) :
    Except PyErr (List Recommendation) :=
  match acad with
  | .error e => .error e
  | .ok a =>
    match fin with
    | .error e => .error e
    | .ok f =>
      match well with
      | .error e => .error e
      | .ok w =>
        match car with
        | .error e => .error e
        | .ok c => .ok (sortByPriority (a ++ f ++ w ++ c))

/-- The career data dict loaded at prediction_engine.py line 281:
`career_data.get("interests")` is truthy only when the key is present
with a non-empty list. -/
structure CareerData where
  interests : Option (List String)

/-- The stored student profile dict as read at line 304; only
year_of_study matters, defaulting to the empty string. -/
structure StudentProfileData where
  year_of_study : Option String

/-- PredictiveEngine._generate_career_recommendations
(prediction_engine.py lines 276-313).  When `experiences` is empty the
code evaluates `self.student_profile.get("year_of_study", "")`; if the
stored profile is None (load_student_profile returns None for a missing
or unreadable profile) that raises AttributeError, which nothing in the
engine catches. -/
def generate_career_recommendations (career_data : CareerData)
    (skills experiences : List String)
    (student_profile : Option StudentProfileData) :
    Except PyErr (List Recommendation) :=
  let r1 : List Recommendation :=
    if (career_data.interests.getD []).isEmpty then
      [⟨"Define Your Career Interests",
        "Identifying your interests helps align your academic and extracurricular activities.",
        some ("medium")⟩]
    else []
  let r2 : List Recommendation :=
    if skills.isEmpty then
      [⟨"Start Tracking Skills",
        "Documenting and developing your skills is essential for career readiness.",
        some ("low")⟩]
    else []
  if experiences.isEmpty then
    match student_profile with
    | none => .error (.attributeError ("NoneType object has no attribute get"))
    | some prof =>
      let y := prof.year_of_study.getD ("")
      let r3 : List Recommendation :=
        if y == "2nd Year" || y == "3rd Year" || y == "4th Year" || y == "Final Year" then
          [⟨"Gain Practical Experience",
            "Consider applying for internships or working on projects to build your resume.",
            some (if y == "3rd Year" || y == "4th Year" || y == "Final Year" then "high"
              else "medium")⟩]
        else []
      .ok (r1 ++ r2 ++ r3)
  else .ok (r1 ++ r2)

/-- A sample successful academic-generator output. -/
def sampleAcademicRecs : List Recommendation :=
  [⟨"Multiple Deadlines Approaching",
    "You have 4 tasks due in the next 3 days. Consider creating a study plan.",
    some ("high")⟩]

/-- C5 counterexample: the academic, financial and wellness generators
succeed but the career generator raises AttributeError (no experiences
logged, missing student profile).  get_personalized_recommendations then
evaluates to that exception instead of the partial result (the academic
recommendations plus an empty list for the failed domain) demanded by the
claim. -/
theorem recommendations_error_counterexample :
    generate_career_recommendations ⟨none⟩ [] [] none
        = .error (.attributeError ("NoneType object has no attribute get")) ∧
    get_personalized_recommendations (.ok sampleAcademicRecs) (.ok []) (.ok [])
        (generate_career_recommendations ⟨none⟩ [] [] none)
      = .error (.attributeError ("NoneType object has no attribute get")) ∧
    get_personalized_recommendations (.ok sampleAcademicRecs) (.ok []) (.ok [])
        (generate_career_recommendations ⟨none⟩ [] [] none)
      ≠ .ok (sortByPriority sampleAcademicRecs) :=
  ⟨rfl, rfl, fun h => Except.noConfusion h⟩

/-- C5 amended: get_personalized_recommendations performs no per-domain
error handling: the first generator that raises aborts the call, its
exception propagates to the caller, and no partial result (nor an empty
list for the failed domain) is returned; a recommendation list is
produced only when all four generators succeed. -/
theorem recommendations_error_propagation
    (acad fin well car : Except PyErr (List Recommendation)) (e : PyErr) :
    (acad = .error e → get_personalized_recommendations acad fin well car = .error e) ∧
    (∀ a, acad = .ok a → fin = .error e →
      get_personalized_recommendations acad fin well car = .error e) ∧
    (∀ a f, acad = .ok a → fin = .ok f → well = .error e →
      get_personalized_recommendations acad fin well car = .error e) ∧
    (∀ a f w, acad = .ok a → fin = .ok f → well = .ok w → car = .error e →
      get_personalized_recommendations acad fin well car = .error e) ∧
    (∀ a f w c, acad = .ok a → fin = .ok f → well = .ok w → car = .ok c →
      get_personalized_recommendations acad fin well car
        = .ok (sortByPriority (a ++ f ++ w ++ c))) := by
  refine ⟨?_, ?_, ?_, ?_, ?_⟩
  · intro h
    subst h
    rfl
  · intro a h1 h2
    subst h1; subst h2
    rfl
  · intro a f h1 h2 h3
    subst h1; subst h2; subst h3
    rfl
  · intro a f w h1 h2 h3 h4
    subst h1; subst h2; subst h3; subst h4
    rfl
  · intro a f w c h1 h2 h3 h4
    subst h1; subst h2; subst h3; subst h4
    rfl

/-- Witness for `recommendations_error_propagation`: a failing career
generator propagates its AttributeError past three successful domains. -/
theorem recommendations_error_propagation_witness :
    get_personalized_recommendations (.ok sampleAcademicRecs) (.ok []) (.ok [])
        (.error (.attributeError ("NoneType object has no attribute get")))
      = .error (.attributeError ("NoneType object has no attribute get")) :=
  (recommendations_error_propagation (.ok sampleAcademicRecs) (.ok []) (.ok [])
      (.error (.attributeError ("NoneType object has no attribute get")))
      (.attributeError ("NoneType object has no attribute get"))).2.2.2.1
    sampleAcademicRecs [] [] rfl rfl rfl rfl

theorem priorityRank_cases (r : Recommendation) :
    priorityRank r = 3 ∨ priorityRank r = 2 ∨ priorityRank r = 1 ∨ priorityRank r = 0 := by
  unfold priorityRank
  split_ifs <;> simp

theorem filter_rank_pair (l : List Recommendation) (k j : Nat) :
    l.filter (fun r => priorityRank r == k && (priorityRank r == j))
      = if k = j then l.filter (fun r => priorityRank r == k) else [] := by
  split
  · next hkj =>
    subst hkj
    apply List.filter_congr
    intro a _
    simp
  · next hkj =>
    rw [List.filter_eq_nil_iff]
    intro a _ hp
    simp only [Bool.and_eq_true, beq_iff_eq] at hp
    exact hkj (hp.1 ▸ hp.2)

theorem sortByPriority_filter (l : List Recommendation) (k : Nat) :
    (sortByPriority l).filter (fun r => priorityRank r == k)
      = l.filter (fun r => priorityRank r == k) := by
  unfold sortByPriority
  simp only [List.filter_append, List.filter_filter, filter_rank_pair]
  by_cases h3 : k = 3
  · subst h3; simp
  · by_cases h2 : k = 2
    · subst h2; simp
    · by_cases h1 : k = 1
      · subst h1; simp
      · by_cases h0 : k = 0
        · subst h0; simp
        · simp only [if_neg h3, if_neg h2, if_neg h1, if_neg h0, List.append_nil,
            List.nil_append]
          symm
          rw [List.filter_eq_nil_iff]
          intro a _ hp
          simp only [beq_iff_eq] at hp
          rcases priorityRank_cases a with h | h | h | h <;> omega

theorem sortByPriority_pairwise (l : List Recommendation) :
    (sortByPriority l).Pairwise (fun x y => priorityRank y ≤ priorityRank x) := by
  have hmem : ∀ (j : Nat) (x : Recommendation),
      x ∈ l.filter (fun r => priorityRank r == j) → priorityRank x = j := by
    intro j x hx
    simpa using List.of_mem_filter hx
  have hblock : ∀ j : Nat, (l.filter (fun r => priorityRank r == j)).Pairwise
      (fun x y => priorityRank y ≤ priorityRank x) := by
    intro j
    apply List.pairwise_of_forall_mem_list
    intro a ha b hb
    rw [hmem j a ha, hmem j b hb]
  unfold sortByPriority
  refine List.pairwise_append.mpr
    ⟨List.pairwise_append.mpr
      ⟨List.pairwise_append.mpr ⟨hblock 3, hblock 2, ?_⟩, hblock 1, ?_⟩,
      hblock 0, ?_⟩
  · intro a ha b hb
    rw [hmem 3 a ha, hmem 2 b hb]
    omega
  · intro a ha b hb
    rw [hmem 1 b hb]
    rcases List.mem_append.mp ha with h | h
    · rw [hmem 3 a h]; omega
    · rw [hmem 2 a h]; omega
  · intro a _ b hb
    rw [hmem 0 b hb]
    exact Nat.zero_le _

/-- C6: on the success path the returned list is the stable descending
sort of academic ++ financial ++ wellness ++ career by priority rank
(high=3, medium=2, low=1, unknown=0): consecutive ranks never increase
(so every high entry precedes every medium and low entry), and within
each rank the entries appear exactly in generation order — academic,
then financial, then wellness, then career. -/
theorem recommendations_priority_order (la lf lw lc : List Recommendation) :
    get_personalized_recommendations (.ok la) (.ok lf) (.ok lw) (.ok lc)
        = .ok (sortByPriority (la ++ lf ++ lw ++ lc)) ∧
    (sortByPriority (la ++ lf ++ lw ++ lc)).Pairwise
      (fun x y => priorityRank y ≤ priorityRank x) ∧
    (∀ k : Nat, (sortByPriority (la ++ lf ++ lw ++ lc)).filter
        (fun r => priorityRank r == k)
      = (la ++ lf ++ lw ++ lc).filter (fun r => priorityRank r == k)) :=
  ⟨rfl, sortByPriority_pairwise _, fun k => sortByPriority_filter _ k⟩

/-- Deterministic model of the `random` module: a stream of raw draws
consumed left to right.  `randDraw lo hi` yields a value in [lo, hi]
determined by the head of the stream, like random.randint(lo, hi). -/
def randDraw (lo hi : Int) (s : List Int) : Int × List Int :=
  (lo + Int.emod s.headI (hi - lo + 1), s.tail)

/-- random.choice: pick an element of `l` (or `d` for an empty list) as
directed by the head of the stream. -/
def randChoice (l : List String) (d : String) (s : List Int) : String × List Int :=
  (l.getD (Int.emod s.headI l.length).toNat d, s.tail)

/-- One sample transaction of the new-student branch of
get_recent_transactions (financial_planner.py lines 62-78) at index `i`
with precomputed date: expenses (i % 3 ≠ 0) draw an amount in [50, 500]
and a random category; incomes draw an amount in [500, 2000] with the
fixed category. -/
def sampleTransaction (i : Nat) (d : PyDate) (s : List Int) :
    Transaction × List Int :=
  if i % 3 ≠ 0 then
    let a := randDraw 50 500 s
    let cat := randChoice
      ["Food", "Transportation", "Books & Supplies", "Entertainment"] ("Other") a.2
    (⟨some d, some (-(a.1 : ℚ)), some cat.1,
      some ("Sample expense " ++ toString i)⟩, cat.2)
  else
    let a := randDraw 500 2000 s
    (⟨some d, some ((a.1 : ℚ)), some ("Pocket Money"),
      some ("Sample income " ++ toString i)⟩, a.2)

/-- Sort key `x.get("date", "")`: a missing date reads as the empty
string, below every ISO datetime string. -/
def dateKey (t : Transaction) : Option PyDate := t.date

/-- Order on optional dates with the empty string (`none`) minimal. -/
def dateKeyLe (a b : Option PyDate) : Bool :=
  match a, b with
  | none, _ => true
  | some _, none => false
  | some x, some y => PyDate.le x y

/-- FinancialPlanner.get_recent_transactions (financial_planner.py lines
60-89).  `dayShift now i` models the datetime-library operation
`datetime.now() - timedelta(days=i)` and `rng` the state of the `random`
module, both consumed only by the sample-data branch for new students.
Stored transactions are returned sorted by date descending (stable) and
truncated to `limit` when limit is truthy (non-zero). -/
def get_recent_transactions (dayShift : PyDate → Nat → PyDate)
    (transactions : List Transaction) (limit : Nat) (now : PyDate)
    (rng : List Int) : List Transaction :=
  if transactions.isEmpty then
    ((List.range 10).foldl (fun (acc : List Transaction × List Int) k =>
      let ts := sampleTransaction k (dayShift now (10 - k)) acc.2
      (acc.1 ++ [ts.1], ts.2)) ([], rng)).1
  else
    let sorted_transactions :=
      sortB (fun a b => dateKeyLe (dateKey b) (dateKey a)) transactions
    if limit ≠ 0 then sorted_transactions.take limit else sorted_transactions

/-- A stored mood entry (mental_wellness.py); optional fields mirror dict
keys that may be absent. -/
structure MoodEntry where
  date : Option PyDate
  score : Option ℚ
deriving DecidableEq

/-- An item of the list get_mood_history returns: date and score only
(`none` stands for the empty-string default of a missing date). -/
structure MoodPoint where
  date : Option PyDate
  score : ℚ
deriving DecidableEq

/-- MentalWellnessCoach.get_mood_history (mental_wellness.py lines
54-72): with no stored entries, 14 days of sample scores
`5 + random.randint(-2, 2)`; otherwise the stored entries projected to
date and score with defaults. -/
def get_mood_history (dayShift : PyDate → Nat → PyDate)
    (mood_entries : List MoodEntry) (now : PyDate) (rng : List Int) :
    List MoodPoint :=
  if mood_entries.isEmpty then
    ((List.range 14).foldl (fun (acc : List MoodPoint × List Int) k =>
      let v := randDraw (-2) 2 acc.2
      (acc.1 ++ [⟨some (dayShift now (14 - k)), ((5 + v.1 : Int) : ℚ)⟩], v.2)) ([], rng)).1
  else
    mood_entries.map (fun e => ⟨e.date, e.score.getD 0⟩)

/-- C8 amended: with a non-empty stored collection both getters are pure,
deterministic functions of the stored records alone — the clock and the
random state do not influence the result.  (The empty-collection sample
branches do consume the random stream; see the counterexample.) -/
theorem getters_deterministic (transactions : List Transaction)
    (mood_entries : List MoodEntry) (limit : Nat)
    (ds ds2 : PyDate → Nat → PyDate) (now now2 : PyDate) (rng rng2 : List Int)
    (ht : transactions ≠ []) (hm : mood_entries ≠ []) :
    get_recent_transactions ds transactions limit now rng
      = get_recent_transactions ds2 transactions limit now2 rng2 ∧
    get_mood_history ds mood_entries now rng
      = get_mood_history ds2 mood_entries now2 rng2 := by
  have h1 : ¬ (transactions.isEmpty = true) := by
    simpa [List.isEmpty_iff] using ht
  have h2 : ¬ (mood_entries.isEmpty = true) := by
    simpa [List.isEmpty_iff] using hm
  constructor
  · unfold get_recent_transactions
    rw [if_neg h1, if_neg h1]
  · unfold get_mood_history
    rw [if_neg h2, if_neg h2]

/-- The identity day-shift, standing in for datetime arithmetic at a
fixed clock. -/
def constShift : PyDate → Nat → PyDate := fun d _ => d

/-- Witness for `getters_deterministic`: one stored transaction and one
stored mood entry produce identical outputs under different clocks and
random states. -/
theorem getters_deterministic_witness :
    ([(⟨some ⟨2025, 1, 2, 0⟩, some (-20), some ("Food"), none⟩ : Transaction)] ≠ []) ∧
    ([(⟨some ⟨2025, 1, 2, 0⟩, some 6⟩ : MoodEntry)] ≠ []) ∧
    (get_recent_transactions constShift
        [⟨some ⟨2025, 1, 2, 0⟩, some (-20), some ("Food"), none⟩] 10
        ⟨2025, 1, 5, 0⟩ []
      = get_recent_transactions constShift
        [⟨some ⟨2025, 1, 2, 0⟩, some (-20), some ("Food"), none⟩] 10
        ⟨2030, 6, 6, 6⟩ [1, 2, 3] ∧
    get_mood_history constShift [⟨some ⟨2025, 1, 2, 0⟩, some 6⟩] ⟨2025, 1, 5, 0⟩ []
      = get_mood_history constShift [⟨some ⟨2025, 1, 2, 0⟩, some 6⟩]
        ⟨2030, 6, 6, 6⟩ [1, 2, 3]) :=
  ⟨by simp, by simp,
    getters_deterministic
      [⟨some ⟨2025, 1, 2, 0⟩, some (-20), some ("Food"), none⟩]
      [⟨some ⟨2025, 1, 2, 0⟩, some 6⟩] 10 constShift constShift
      ⟨2025, 1, 5, 0⟩ ⟨2030, 6, 6, 6⟩ [] [1, 2, 3] (by simp) (by simp)⟩

/-- C8 counterexample: on the empty stored collections (a new student),
two calls in different random states return different sample data, so
neither getter is a deterministic function of the stored state. -/
theorem getters_random_counterexample :
    get_recent_transactions constShift [] 10 ⟨2025, 1, 1, 0⟩
        (List.replicate 20 0)
      ≠ get_recent_transactions constShift [] 10 ⟨2025, 1, 1, 0⟩
        (List.replicate 20 1) ∧
    get_mood_history constShift [] ⟨2025, 1, 1, 0⟩ (List.replicate 20 0)
      ≠ get_mood_history constShift [] ⟨2025, 1, 1, 0⟩ (List.replicate 20 1) := by
  constructor <;> decide

/-- DataManager state (data_manager.py): the JSON documents written under
data_dir by save_data, keyed by (student_id, module, file_name), plus the
`data` attribute that get_data reads.  __init__ (lines 12-23) only sets
data_dir and creates directories — it never assigns self.data, so a fresh
instance has the attribute absent (`none`), and reading it raises
AttributeError. -/
structure DataManagerState where
  files : List ((String × String × String) × List Transaction)
  dataAttr : Option (List (String × List (String × List Transaction)))

/-- DataManager.__init__: fresh state with no documents and no `data`
attribute. -/
def DataManager_init : DataManagerState := ⟨[], none⟩

/-- Overwrite-or-create of one JSON document. -/
def putFile (files : List ((String × String × String) × List Transaction))
    (key : String × String × String) (v : List Transaction) :
    List ((String × String × String) × List Transaction) :=
  match files with
  | [] => [(key, v)]
  | (k2, v2) :: rest =>
    if k2 = key then (k2, v) :: rest else (k2, v2) :: putFile rest key v

/-- DataManager.save_data (data_manager.py lines 119-135): writes the
document and returns True; the `data` attribute is untouched. -/
def save_data (st : DataManagerState) (student_id module_name file_name : String)
    (data : List Transaction) : DataManagerState × Bool :=
  (⟨putFile st.files (student_id, module_name, file_name) data, st.dataAttr⟩, true)

/-- DataManager.get_data (data_manager.py lines 151-165): reads
self.data[student_id][data_type] behind `in` checks, returning `default`
when either key is missing; the AttributeError raised when the `data`
attribute itself is absent is caught by the except clause, which also
returns `default`. -/
def get_data (st : DataManagerState) (student_id data_type : String)
    (default : List Transaction) : List Transaction :=
  match st.dataAttr with
  | none => default
  | some m =>
    match List.lookup student_id m with
    | none => default
    | some sub =>
      match List.lookup data_type sub with
      | none => default
      | some v => v

/-- FinancialPlanner.get_all_transactions (financial_planner.py lines
91-100): get_data with data type "financial_transactions" and default
[]. -/
def get_all_transactions (st : DataManagerState) (student_id : String) :
    List Transaction :=
  get_data st student_id ("financial_transactions") []

/-- FinancialPlanner.get_expenses_by_category (financial_planner.py lines
369-401): group the negative-amount transactions of
get_all_transactions by category, then sort the (category, total) pairs
by total descending. -/
def get_expenses_by_category (st : DataManagerState) (student_id : String) :
    List (String × ℚ) :=
  let transactions := get_all_transactions st student_id
  let expenses := transactions.filter (fun t => decide (amtOf t < 0))
  let categories := expenses.foldl (fun m t => addToCategory m (catOf t) |amtOf t|) []
  sortB (fun a b => decide (Prod.snd b ≤ Prod.snd a)) categories

/-- One save_data invocation. -/
structure SaveOp where
  student_id : String
  module_name : String
  file_name : String
  data : List Transaction

/-- A sequence of save_data calls applied to a DataManager state. -/
def apply_saves (ops : List SaveOp) (st : DataManagerState) : DataManagerState :=
  ops.foldl (fun s op => (save_data s op.student_id op.module_name op.file_name op.data).1) st

/-- C10: the constructor never initializes the `data` attribute that
get_data reads, and save_data never creates it either; hence after any
sequence of save_data calls on a fresh DataManager, get_data returns its
default for every student id and data type, and consequently
get_all_transactions and get_expenses_by_category return the empty
list regardless of the transactions previously stored. -/
theorem get_data_always_default (ops : List SaveOp) (student_id data_type : String)
    (default : List Transaction) :
    (apply_saves ops DataManager_init).dataAttr = none ∧
    get_data (apply_saves ops DataManager_init) student_id data_type default = default ∧
    get_all_transactions (apply_saves ops DataManager_init) student_id = [] ∧
    get_expenses_by_category (apply_saves ops DataManager_init) student_id = [] := by
  have hattr : ∀ (ops2 : List SaveOp) (st : DataManagerState), st.dataAttr = none →
      (apply_saves ops2 st).dataAttr = none := by
    intro ops2
    induction ops2 with
    | nil => intro st h; exact h
    | cons op rest ih => intro st h; exact ih _ h
  have h0 : (apply_saves ops DataManager_init).dataAttr = none := hattr ops _ rfl
  refine ⟨h0, ?_, ?_, ?_⟩
  · unfold get_data
    rw [h0]
  · unfold get_all_transactions get_data
    rw [h0]
  · unfold get_expenses_by_category get_all_transactions get_data
    rw [h0]
    rfl
